import Mathlib

/-!
Verification of the azure-exemption-cli wizard state machine.

This file is a shallow embedding of the Go sources of the repository
`Lukas-Klein/azure-exemption-cli`:

* `azure/types.go`   — the entity types `Subscription`, `PolicyAssignment`,
  `PolicyDefinitionRef`, `ResourceGroup` and their pure methods;
* `tui/model.go`     — the `Model` aggregate, its constructor, the
  `CurrentSubscription` / `CurrentAssignment` accessors and `Fail`;
* `tui/update.go`    — the `Update` message dispatcher and the `handleKey`
  per-step key handler, which together form the wizard state machine.

Modelling conventions:

* Go strings are Lean `String`s; the string helpers the source uses from the
  Go standard library (`strings.Split`, `strings.HasPrefix`,
  `strings.TrimSpace`, `time.Parse` with the `"2006-01-02"` layout) are
  re-implemented structurally on `List Char` so that they evaluate inside the
  kernel.
* Go `map[string]bool` used as a set of selected reference ids is modelled as
  `Finset String` (a Go map cannot hold duplicate keys).
* Go `int` fields (`cursor`, the three selection indices) are `Int`.
* `tea.Cmd` values returned by transitions are modelled by the closed `Cmd`
  type listing the asynchronous operations the source can schedule, plus
  `quit`; the cursor-blink commands returned by the text-input widget are
  presentation glue and are modelled as `none`.
* The bubbles text input is modelled by its value and focus flag; its
  `Update` inserts printable runes when focused and ignores control keys,
  which is the only behaviour the state machine observes.
* The single read of the ambient clock (`time.Now().AddDate(0, 0, 30)` used
  to pre-fill the expiration input) is modelled by the `NowPlus30` field,
  fixed at construction.
* Out-of-range list indexing, which would be a runtime panic in Go, is
  totalized with the zero value of the element type; the reachability
  invariant proved below shows the cursor stays in range.
-/

namespace AzureExemptionCli

/-- Splits a list of characters at every occurrence of `sep`, keeping empty
segments, like Go `strings.Split` with a one-character separator. -/
def splitChars (sep : Char) : List Char → List (List Char)
  | [] => [[]]
  | c :: rest =>
    let r := splitChars sep rest
    if c = sep then [] :: r
    else
      match r with
      | [] => [[c]]
      | h :: t => (c :: h) :: t

/-- Last `/`-separated segment of a string: `parts[len(parts)-1]` after
`strings.Split(s, "/")`. -/
def lastSegment (s : String) : String :=
  ⟨(splitChars '/' s.toList).getLastD []⟩

/-- Go `strings.HasPrefix s p`. -/
def hasPrefixStr (s p : String) : Bool :=
  p.toList.isPrefixOf s.toList

/-- ASCII whitespace as trimmed by Go `strings.TrimSpace` (the non-ASCII
white space code points Go also trims never arise in the claims). -/
def isSpaceChar (c : Char) : Bool :=
  c = ' ' || c = '\t' || c = '\n' || c = '\r' || c = '\x0b' || c = '\x0c'

/-- Go `strings.TrimSpace`. -/
def trimStr (s : String) : String :=
  ⟨((s.toList.dropWhile isSpaceChar).reverse.dropWhile isSpaceChar).reverse⟩

/-- Decimal value of a digit list. -/
def digitsToNat (l : List Char) : Nat :=
  l.foldl (fun acc c => acc * 10 + (c.toNat - '0'.toNat)) 0

/-- Gregorian leap-year rule, as in Go `time`. -/
def isLeapYear (y : Nat) : Bool :=
  (y % 4 = 0 && y % 100 ≠ 0) || y % 400 = 0

/-- Number of days of month `m` of year `y`, as in Go `time`. -/
def daysInMonth (y m : Nat) : Nat :=
  if m = 2 then (if isLeapYear y then 29 else 28)
  else if m = 4 || m = 6 || m = 9 || m = 11 then 30
  else 31

/-- Go `time.Parse("2006-01-02", s)`: exactly four year digits, two month
digits and two day digits separated by hyphens, with the month in `1..12`
and the day within the month's length (leap-year aware); `none` models the
parse error. -/
def parseDate (s : String) : Option (Nat × Nat × Nat) :=
  match splitChars '-' s.toList with
  | [y, mo, d] =>
    if y.length = 4 && mo.length = 2 && d.length = 2 &&
       y.all Char.isDigit && mo.all Char.isDigit && d.all Char.isDigit then
      let yn := digitsToNat y
      let mn := digitsToNat mo
      let dn := digitsToNat d
      if 1 ≤ mn && mn ≤ 12 && 1 ≤ dn && dn ≤ daysInMonth yn mn then
        some (yn, mn, dn)
      else none
    else none
  | _ => none

/-- `azure.Subscription` (azure/types.go). -/
structure Subscription where
  ID : String
  Name : String
deriving DecidableEq, Repr, Inhabited

/-- `Subscription.Scope` (azure/types.go): the canonical scope path. -/
def Subscription.Scope (s : Subscription) : String :=
  if hasPrefixStr s.ID "/" then s.ID
  else "/subscriptions/" ++ s.ID

/-- `Subscription.ShortID` (azure/types.go). -/
def Subscription.ShortID (s : Subscription) : String :=
  if !hasPrefixStr s.ID "/subscriptions/" then s.ID
  else lastSegment s.ID

/-- `azure.ResourceGroup` (azure/types.go). -/
structure ResourceGroup where
  ID : String
  Name : String
deriving DecidableEq, Repr, Inhabited

/-- `azure.PolicyAssignment` (azure/types.go). -/
structure PolicyAssignment where
  ID : String
  Name : String
  DisplayName : String
  Scope : String
  PolicyDefinitionID : String
deriving DecidableEq, Repr, Inhabited

/-- `PolicyAssignment.DisplayLabel` (azure/types.go). -/
def PolicyAssignment.DisplayLabel (p : PolicyAssignment) : String :=
  if p.DisplayName ≠ "" then p.DisplayName else p.Name

/-- `azure.PolicyDefinitionRef` (azure/types.go). -/
structure PolicyDefinitionRef where
  PolicyDefinitionID : String
  ReferenceID : String
  DisplayName : String
deriving DecidableEq, Repr, Inhabited

/-- `tui.Step` (tui/model.go). -/
inductive Step where
  | loadingSubscriptions
  | selectSubscription
  | loadingAssignments
  | selectAssignment
  | loadingAssignmentDefinitions
  | assignmentScope
  | selectDefinitions
  | loadingResourceGroups
  | selectResourceGroup
  | ticket
  | users
  | expirationChoice
  | expirationDate
  | confirm
  | creating
  | done
  | error
deriving DecidableEq, Repr, Inhabited

/-- The bubbles text input, reduced to the two pieces of state the wizard
observes: its current value and whether it is focused. -/
structure TextInput where
  value : String
  focused : Bool
deriving DecidableEq, Repr, Inhabited

/-- Key events, by the representation `tea.KeyMsg.String()` exposes to the
source's `switch` statements: the named keys the source distinguishes and
printable runes (`.char ' '` is the space key). Modifier combinations are
not modelled. -/
inductive Key where
  | up
  | down
  | enter
  | char (c : Char)
  | other (s : String)
deriving DecidableEq, Repr, Inhabited

/-- `tea.KeyMsg.String()`. -/
def Key.string : Key → String
  | .up => "up"
  | .down => "down"
  | .enter => "enter"
  | .char c => String.singleton c
  | .other s => s

/-- `msg.Type == tea.KeyEnter`. -/
def Key.isEnter : Key → Bool
  | .enter => true
  | _ => false

/-- The bubbles text-input `Update`: inserts printable runes while focused,
leaves the value unchanged on control keys such as enter. -/
def TextInput.update (t : TextInput) (k : Key) : TextInput :=
  match k with
  | .char c => if t.focused then { t with value := t.value ++ String.singleton c } else t
  | _ => t

/-- `textinput.Model.Blur`. -/
def TextInput.blur (t : TextInput) : TextInput :=
  { t with focused := false }

/-- The messages `tui.Update` dispatches on (tui/update.go): key events and
the five completion events, each carrying a payload and an optional error
(the Go `error` is modelled by its message string). -/
inductive Msg where
  | key (k : Key)
  | subscriptionsLoaded (subscriptions : List Subscription) (err : Option String)
  | assignmentsLoaded (assignments : List PolicyAssignment) (err : Option String)
  | assignmentDefinitionsLoaded (definitions : List PolicyDefinitionRef) (err : Option String)
  | resourceGroupsLoaded (resourceGroups : List ResourceGroup) (err : Option String)
  | exemptionCreated (output : String) (err : Option String)

/-- The `tea.Cmd` values the state machine can return: `tea.Quit` and the
five asynchronous gateway operations, with the arguments the source passes
to the corresponding `fetch*Cmd` / `createExemptionCmd` constructor. -/
inductive Cmd where
  | quit
  | fetchSubscriptions
  | fetchAssignments (sub : Subscription)
  | fetchAssignmentDefinitions (assignment : PolicyAssignment)
  | fetchResourceGroups (sub : Subscription)
  | createExemption (scope : String) (assignment : PolicyAssignment)
      (refs : Finset String) (ticket : String) (users : String) (expiration : String)

/-- `tui.Model` (tui/model.go). The `ctx` and `azureClient` fields are I/O
handles consumed only by the gateway and carry no state-machine information;
`NowPlus30` models the single clock read (see the file comment). -/
structure Model where
  Step : Step
  Status : String
  Err : Option String
  Subscriptions : List Subscription
  Assignments : List PolicyAssignment
  AssignmentDefinitions : List PolicyDefinitionRef
  ResourceGroups : List ResourceGroup
  SelectedDefinitionIDs : Finset String
  Cursor : Int
  SelectedSubscription : Int
  SelectedAssignment : Int
  SelectedResourceGroup : Int
  PartialExemption : Bool
  TicketInput : TextInput
  UserInput : TextInput
  ExpirationInput : TextInput
  Ticket : String
  RequestUser : String
  ExpirationDate : String
  CreateOutput : String
  NowPlus30 : String

/-- `Model.CurrentSubscription` (tui/model.go). -/
def Model.CurrentSubscription (m : Model) : Subscription :=
  if 0 ≤ m.SelectedSubscription ∧ m.SelectedSubscription < (m.Subscriptions.length : Int) then
    m.Subscriptions.getD m.SelectedSubscription.toNat default
  else if m.Subscriptions.length = 0 then default
  else m.Subscriptions.getD 0 default

/-- `Model.CurrentAssignment` (tui/model.go). -/
def Model.CurrentAssignment (m : Model) : PolicyAssignment :=
  if 0 ≤ m.SelectedAssignment ∧ m.SelectedAssignment < (m.Assignments.length : Int) then
    m.Assignments.getD m.SelectedAssignment.toNat default
  else if m.Assignments.length = 0 then default
  else m.Assignments.getD 0 default

/-- `Model.Fail` (tui/model.go). -/
def Model.Fail (m : Model) (err : String) : Model × Option Cmd :=
  ({ m with Err := some err, Step := .error, Status := "" }, none)

/-- `Model.handleKey` (tui/update.go): the per-step key handler.  The Go
method mutates the model and returns a `tea.Cmd`; here it returns the new
model together with the scheduled command, `none` standing for Go `nil` and
for the text-input blink commands. -/
def Model.handleKey (m : Model) (k : Key) : Model × Option Cmd :=
  match m.Step with
  | .selectSubscription =>
    if k.string = "up" ∨ k.string = "k" then
      (if m.Cursor > 0 then { m with Cursor := m.Cursor - 1 } else m, none)
    else if k.string = "down" ∨ k.string = "j" then
      (if m.Cursor < (m.Subscriptions.length : Int) - 1 then
        { m with Cursor := m.Cursor + 1 } else m, none)
    else if k.string = "enter" then
      if m.Subscriptions.length = 0 then (m, none)
      else
        let m1 := { m with SelectedSubscription := m.Cursor, Step := Step.loadingAssignments }
        let sub := m1.CurrentSubscription
        ({ m1 with Status := "Fetching policy assignments for " ++ sub.Name ++ "..." },
         some (.fetchAssignments sub))
    else (m, none)
  | .selectAssignment =>
    if k.string = "up" ∨ k.string = "k" then
      (if m.Cursor > 0 then { m with Cursor := m.Cursor - 1 } else m, none)
    else if k.string = "down" ∨ k.string = "j" then
      (if m.Cursor < (m.Assignments.length : Int) - 1 then
        { m with Cursor := m.Cursor + 1 } else m, none)
    else if k.string = "enter" then
      if m.Assignments.length = 0 then (m, none)
      else
        let m1 := { m with SelectedAssignment := m.Cursor,
                           Step := Step.loadingAssignmentDefinitions }
        let assign := m1.CurrentAssignment
        ({ m1 with Status := "Fetching assignment details for " ++ assign.DisplayLabel ++ "..." },
         some (.fetchAssignmentDefinitions assign))
    else (m, none)
  | .assignmentScope =>
    if k.string = "up" ∨ k.string = "k" then
      (if m.Cursor > 0 then { m with Cursor := m.Cursor - 1 } else m, none)
    else if k.string = "down" ∨ k.string = "j" then
      (if m.Cursor < 1 then { m with Cursor := m.Cursor + 1 } else m, none)
    else if k.string = "enter" then
      if m.Cursor = 0 then
        let m1 := { m with PartialExemption := false, Step := Step.loadingResourceGroups,
                           Status := "Loading resource groups..." }
        (m1, some (.fetchResourceGroups m1.CurrentSubscription))
      else
        ({ m with PartialExemption := true, Step := Step.selectDefinitions, Cursor := 0,
                  Status := "Select definitions to exempt (space to toggle, Enter to continue)." },
         none)
    else (m, none)
  | .selectDefinitions =>
    if k.string = "up" ∨ k.string = "k" then
      (if m.Cursor > 0 then { m with Cursor := m.Cursor - 1 } else m, none)
    else if k.string = "down" ∨ k.string = "j" then
      (if m.Cursor < (m.AssignmentDefinitions.length : Int) - 1 then
        { m with Cursor := m.Cursor + 1 } else m, none)
    else if k.string = " " then
      if m.AssignmentDefinitions.length = 0 then (m, none)
      else
        let ref := m.AssignmentDefinitions.getD m.Cursor.toNat default
        if ref.ReferenceID ∈ m.SelectedDefinitionIDs then
          ({ m with SelectedDefinitionIDs := m.SelectedDefinitionIDs.erase ref.ReferenceID },
           none)
        else
          ({ m with SelectedDefinitionIDs := insert ref.ReferenceID m.SelectedDefinitionIDs },
           none)
    else if k.string = "enter" then
      if m.AssignmentDefinitions.length = 0 then (m, none)
      else if m.SelectedDefinitionIDs.card = 0 then
        ({ m with Status := "Select at least one definition or choose full assignment." }, none)
      else
        let m1 := { m with Step := Step.loadingResourceGroups,
                           Status := "Loading resource groups..." }
        (m1, some (.fetchResourceGroups m1.CurrentSubscription))
    else (m, none)
  | .selectResourceGroup =>
    if k.string = "up" ∨ k.string = "k" then
      (if m.Cursor > 0 then { m with Cursor := m.Cursor - 1 } else m, none)
    else if k.string = "down" ∨ k.string = "j" then
      (if m.Cursor < (m.ResourceGroups.length : Int) - 1 then
        { m with Cursor := m.Cursor + 1 } else m, none)
    else if k.string = "enter" then
      if m.ResourceGroups.length = 0 then (m, none)
      else
        ({ m with SelectedResourceGroup := m.Cursor, Step := Step.ticket,
                  TicketInput := { value := "", focused := true },
                  Status := "Provide the tracking ticket number linked to this exemption:" },
         none)
    else (m, none)
  | .ticket =>
    let m := { m with TicketInput := m.TicketInput.update k }
    if k.isEnter then
      let value := trimStr m.TicketInput.value
      if value = "" then
        ({ m with Status := "A ticket number is required." }, none)
      else
        ({ m with Ticket := value, Step := Step.users,
                  TicketInput := m.TicketInput.blur,
                  UserInput := { value := "", focused := true },
                  Status := "Who is requesting this exemption? Provide one or more names." },
         none)
    else (m, none)
  | .users =>
    let m := { m with UserInput := m.UserInput.update k }
    if k.isEnter then
      let value := trimStr m.UserInput.value
      if value = "" then
        ({ m with Status := "At least one requester name is required." }, none)
      else
        ({ m with RequestUser := value, Step := Step.expirationChoice,
                  UserInput := m.UserInput.blur, Cursor := 0,
                  Status := "Set an expiration date for this exemption?" },
         none)
    else (m, none)
  | .expirationChoice =>
    if k.string = "up" ∨ k.string = "k" then
      (if m.Cursor > 0 then { m with Cursor := m.Cursor - 1 } else m, none)
    else if k.string = "down" ∨ k.string = "j" then
      (if m.Cursor < 1 then { m with Cursor := m.Cursor + 1 } else m, none)
    else if k.string = "enter" then
      if m.Cursor = 0 then
        ({ m with ExpirationDate := "", Step := Step.confirm,
                  Status := "Review the summary and press Enter to create the exemption." },
         none)
      else
        ({ m with Step := Step.expirationDate,
                  ExpirationInput := { value := m.NowPlus30, focused := true },
                  Status := "Enter expiration date (YYYY-MM-DD):" },
         none)
    else (m, none)
  | .expirationDate =>
    let m := { m with ExpirationInput := m.ExpirationInput.update k }
    if k.isEnter then
      let value := trimStr m.ExpirationInput.value
      if value = "" then
        ({ m with Status := "Expiration date is required." }, none)
      else if (parseDate value).isNone then
        ({ m with Status := "Invalid date format. Please use YYYY-MM-DD." }, none)
      else
        ({ m with ExpirationDate := value, Step := Step.confirm,
                  ExpirationInput := m.ExpirationInput.blur,
                  Status := "Review the summary and press Enter to create the exemption." },
         none)
    else (m, none)
  | .confirm =>
    if k.isEnter then
      if m.SelectedAssignment < 0 ∨ m.Ticket = "" ∨ m.RequestUser = "" ∨
         m.SelectedSubscription < 0 ∨ m.SelectedResourceGroup < 0 then
        ({ m with Status := "Missing information. Use q to abort." }, none)
      else
        let m1 := { m with Step := Step.creating }
        let assign := m1.CurrentAssignment
        let rg := m1.ResourceGroups.getD m1.SelectedResourceGroup.toNat default
        ({ m1 with Status := "Creating Azure Policy exemption..." },
         some (.createExemption rg.ID assign m1.SelectedDefinitionIDs m1.Ticket
                m1.RequestUser m1.ExpirationDate))
    else (m, none)
  | _ => (m, none)

/-- `Model.Update` (tui/update.go): the message dispatcher. -/
def Model.Update (m : Model) (msg : Msg) : Model × Option Cmd :=
  match msg with
  | .key k =>
    if k.string = "ctrl+c" ∨ k.string = "q" then (m, some .quit)
    else m.handleKey k
  | .subscriptionsLoaded subs err =>
    match err with
    | some e => m.Fail e
    | none =>
      if subs.length = 0 then m.Fail "no subscriptions returned by Azure CLI"
      else
        ({ m with Subscriptions := subs, Cursor := 0, SelectedSubscription := -1,
                  Step := .selectSubscription,
                  Status := "Use ↑/↓ to highlight a subscription and press Enter to continue." },
         none)
  | .assignmentsLoaded assigns err =>
    match err with
    | some e => m.Fail e
    | none =>
      if assigns.length = 0 then
        let sub := m.CurrentSubscription
        m.Fail ("no policy assignments were returned for subscription " ++ sub.Name ++
                " (" ++ sub.ShortID ++ ")")
      else
        ({ m with Assignments := assigns, SelectedAssignment := -1,
                  AssignmentDefinitions := [], SelectedDefinitionIDs := ∅,
                  PartialExemption := false, Cursor := 0, Step := .selectAssignment,
                  Status := "Use ↑/↓ to highlight an assignment and press Enter to continue." },
         none)
  | .assignmentDefinitionsLoaded defs err =>
    match err with
    | some e => m.Fail e
    | none =>
      let m1 := { m with AssignmentDefinitions := defs, SelectedDefinitionIDs := ∅,
                         PartialExemption := false }
      if defs.length > 1 then
        ({ m1 with Step := .assignmentScope, Cursor := 0,
                   Status := "Exempt entire assignment or select specific definitions?" },
         none)
      else
        let m2 := { m1 with PartialExemption := false, Step := .loadingResourceGroups,
                            Status := "Loading resource groups..." }
        (m2, some (.fetchResourceGroups m2.CurrentSubscription))
  | .resourceGroupsLoaded rgs err =>
    match err with
    | some e => m.Fail e
    | none =>
      let sub := m.CurrentSubscription
      let entireSub : ResourceGroup := { Name := "Entire Subscription", ID := sub.Scope }
      ({ m with ResourceGroups := entireSub :: rgs, SelectedResourceGroup := -1,
                Cursor := 0, Step := .selectResourceGroup,
                Status := "Select the scope for the exemption (Subscription or Resource Group)." },
       none)
  | .exemptionCreated output err =>
    match err with
    | some e => m.Fail e
    | none =>
      ({ m with CreateOutput := output, Step := .done,
                Status := "Exemption created successfully. Press q to exit." },
       none)

/-- `tui.NewModel` (tui/model.go), as a function of the clock value used to
pre-fill the expiration input. -/
def initialModel (nowPlus30 : String) : Model :=
  { Step := .loadingSubscriptions
    Status := ""
    Err := none
    Subscriptions := []
    Assignments := []
    AssignmentDefinitions := []
    ResourceGroups := []
    SelectedDefinitionIDs := ∅
    Cursor := 0
    SelectedSubscription := -1
    SelectedAssignment := -1
    SelectedResourceGroup := -1
    PartialExemption := false
    TicketInput := { value := "", focused := false }
    UserInput := { value := "", focused := false }
    ExpirationInput := { value := "", focused := false }
    Ticket := ""
    RequestUser := ""
    ExpirationDate := ""
    CreateOutput := ""
    NowPlus30 := nowPlus30 }

/-- `Model.Init` (tui/model.go) schedules the subscription fetch. -/
def initCmd : Cmd := .fetchSubscriptions

/-- States reachable from the initial model under arbitrary event sequences. -/
inductive Reachable : Model → Prop where
  | init (nowPlus30 : String) : Reachable (initialModel nowPlus30)
  | step (m : Model) (msg : Msg) : Reachable m → Reachable (m.Update msg).1

/-- Length of the list the cursor currently navigates, when the current step
displays one (`assignmentScope` and `expirationChoice` render two fixed
options). -/
def currentListLength (m : Model) : Option Nat :=
  match m.Step with
  | .selectSubscription => some m.Subscriptions.length
  | .selectAssignment => some m.Assignments.length
  | .assignmentScope => some 2
  | .selectDefinitions => some m.AssignmentDefinitions.length
  | .selectResourceGroup => some m.ResourceGroups.length
  | .expirationChoice => some 2
  | _ => none

/-- Cursor invariant: whenever the current step displays a non-empty list,
the cursor is a valid index into it. -/
def cursorInv (m : Model) : Prop :=
  ∀ n : Nat, currentListLength m = some n → 0 < n →
    0 ≤ m.Cursor ∧ m.Cursor < (n : Int)

/-- The steps whose entry must come with a scheduled asynchronous operation
(the loading steps reached after the initial one, and the create step). -/
def isLoadingOrCreating : Step → Bool
  | .loadingAssignments => true
  | .loadingAssignmentDefinitions => true
  | .loadingResourceGroups => true
  | .creating => true
  | _ => false

/-- Whether a scheduled command is the asynchronous operation matching the
step being entered. -/
def cmdMatchesStep : Step → Cmd → Bool
  | .loadingSubscriptions, .fetchSubscriptions => true
  | .loadingAssignments, .fetchAssignments _ => true
  | .loadingAssignmentDefinitions, .fetchAssignmentDefinitions _ => true
  | .loadingResourceGroups, .fetchResourceGroups _ => true
  | .creating, .createExemption _ _ _ _ _ _ => true
  | _, _ => false

/-- C1: on a definitions-loaded completion event without error, a definition
list of size 0 or 1 sends the machine directly to `loadingResourceGroups`
with the partial flag false and the definition-selection set empty — it
never enters `assignmentScope` or `selectDefinitions` — while a list of
size 2 or more enters `assignmentScope` (cursor reset to 0) and not
`loadingResourceGroups`. -/
theorem definitionsLoaded_branches (m : Model) (defs : List PolicyDefinitionRef) :
    ((m.Update (.assignmentDefinitionsLoaded defs none)).1).Step
      = (if 1 < defs.length then Step.assignmentScope else Step.loadingResourceGroups) ∧
    ((m.Update (.assignmentDefinitionsLoaded defs none)).1).PartialExemption = false ∧
    ((m.Update (.assignmentDefinitionsLoaded defs none)).1).SelectedDefinitionIDs = ∅ ∧
    ((m.Update (.assignmentDefinitionsLoaded defs none)).1).Cursor
      = (if 1 < defs.length then 0 else m.Cursor) := by
  simp only [Model.Update]
  split <;> simp_all

/-- C2: on a resource-groups-loaded completion event without error carrying
`rgs` of length `n`, the stored list has length `n + 1`, its head is the
synthetic "Entire Subscription" entry whose id is the selected
subscription's canonical scope path, and the remaining elements are the
fetched entries in order. -/
theorem resourceGroupsLoaded_prepends (m : Model) (rgs : List ResourceGroup) :
    ((m.Update (.resourceGroupsLoaded rgs none)).1).ResourceGroups.length = rgs.length + 1 ∧
    ((m.Update (.resourceGroupsLoaded rgs none)).1).ResourceGroups.headD default
      = { Name := "Entire Subscription", ID := m.CurrentSubscription.Scope } ∧
    ((m.Update (.resourceGroupsLoaded rgs none)).1).ResourceGroups.drop 1 = rgs ∧
    ((m.Update (.resourceGroupsLoaded rgs none)).1).Step = Step.selectResourceGroup := by
  simp [Model.Update]

/-- C3: a subscriptions-loaded completion event carrying an empty list and
no error sends the machine to `error` with the "no subscriptions" error, and
an assignments-loaded completion event carrying an empty list sends it to
`error` with a message embedding the selected subscription's name; neither
empty list is presented as a selection state. -/
theorem emptyLists_promoted_to_error (ms ma : Model) :
    (((ms.Update (.subscriptionsLoaded [] none)).1).Step = Step.error ∧
     ((ms.Update (.subscriptionsLoaded [] none)).1).Err
        = some "no subscriptions returned by Azure CLI") ∧
    (((ma.Update (.assignmentsLoaded [] none)).1).Step = Step.error ∧
     ((ma.Update (.assignmentsLoaded [] none)).1).Err
        = some ("no policy assignments were returned for subscription "
            ++ ma.CurrentSubscription.Name ++ " (" ++ ma.CurrentSubscription.ShortID ++ ")") ∧
     ∃ pre post, ((ma.Update (.assignmentsLoaded [] none)).1).Err
        = some (pre ++ ma.CurrentSubscription.Name ++ post)) := by
  refine ⟨⟨?_, ?_⟩, ?_, ?_, "no policy assignments were returned for subscription ",
    " (" ++ ma.CurrentSubscription.ShortID ++ ")", ?_⟩ <;>
    simp [Model.Update, Model.Fail, String.append_assoc]

/-- C9 counterexample: for the subscription with id `"/providers/x"`,
`Subscription.ShortID` returns the id unchanged, which is not the last
path segment `"x"`; so the shortened identifier is not the last path
segment for every subscription. -/
theorem shortID_not_lastSegment_counterexample :
    Subscription.ShortID ⟨"/providers/x", "n"⟩ ≠ lastSegment "/providers/x" ∧
    lastSegment "/providers/x" = "x" ∧
    Subscription.ShortID ⟨"/providers/x", "n"⟩ = "/providers/x" := by
  refine ⟨by decide, by decide, by decide⟩

/-- C9 (amended): the shortened identifier is the last path segment of the
identifier exactly when the identifier starts with `"/subscriptions/"`, and
is the identifier unchanged otherwise (in particular `"/subscriptions/a"`
has short id `"a"`); both the shortened identifier and the canonical scope
path are pure functions of the identifier alone. -/
theorem shortID_scope_pure (s : Subscription) :
    (s.ShortID = if hasPrefixStr s.ID "/subscriptions/" then lastSegment s.ID else s.ID) ∧
    Subscription.ShortID ⟨"/subscriptions/a", "Prod"⟩ = "a" ∧
    (∀ t : Subscription, t.ID = s.ID → t.ShortID = s.ShortID ∧ t.Scope = s.Scope) := by
  refine ⟨?_, by decide, ?_⟩
  · unfold Subscription.ShortID
    rcases h : hasPrefixStr s.ID "/subscriptions/" <;> simp [h]
  · intro t ht
    unfold Subscription.ShortID Subscription.Scope
    rw [ht]
    exact ⟨rfl, rfl⟩

/-- C9 witness: the amended theorem applied at the subscription
`"/subscriptions/a"`, its purity part instantiated with a second
subscription sharing the identifier. -/
theorem shortID_scope_pure_witness :
    Subscription.ShortID ⟨"/subscriptions/a", "X"⟩
      = Subscription.ShortID ⟨"/subscriptions/a", "Prod"⟩ :=
  ((shortID_scope_pure ⟨"/subscriptions/a", "Prod"⟩).2.2 ⟨"/subscriptions/a", "X"⟩ rfl).1

/-- C10: `CurrentSubscription` and `CurrentAssignment` are total: a valid
selection index yields that element, an empty list yields the zero value of
the entity type, and a non-empty list with an out-of-range index (such as
`-1`, no selection yet) yields the first element. -/
theorem currentAccessors_total (ma mb mc md me mf : Model)
    (ha : 0 ≤ ma.SelectedSubscription ∧
      ma.SelectedSubscription < (ma.Subscriptions.length : Int))
    (hb : mb.Subscriptions = [])
    (hc1 : mc.Subscriptions ≠ [])
    (hc2 : ¬ (0 ≤ mc.SelectedSubscription ∧
      mc.SelectedSubscription < (mc.Subscriptions.length : Int)))
    (hd : 0 ≤ md.SelectedAssignment ∧
      md.SelectedAssignment < (md.Assignments.length : Int))
    (he : me.Assignments = [])
    (hf1 : mf.Assignments ≠ [])
    (hf2 : ¬ (0 ≤ mf.SelectedAssignment ∧
      mf.SelectedAssignment < (mf.Assignments.length : Int))) :
    ma.CurrentSubscription = ma.Subscriptions.getD ma.SelectedSubscription.toNat default ∧
    mb.CurrentSubscription = { ID := "", Name := "" } ∧
    mc.CurrentSubscription = mc.Subscriptions.getD 0 default ∧
    md.CurrentAssignment = md.Assignments.getD md.SelectedAssignment.toNat default ∧
    me.CurrentAssignment = { ID := "", Name := "", DisplayName := "", Scope := "",
                             PolicyDefinitionID := "" } ∧
    mf.CurrentAssignment = mf.Assignments.getD 0 default := by
  unfold Model.CurrentSubscription Model.CurrentAssignment
  refine ⟨by simp [ha], ?_, ?_, by simp [hd], ?_, ?_⟩
  · rw [if_neg, if_pos]
    · rfl
    · simp [hb]
    · simp [hb]
  · rw [if_neg hc2, if_neg]
    simp_all
  · rw [if_neg, if_pos]
    · rfl
    · simp [he]
    · simp [he]
  · rw [if_neg hf2, if_neg]
    simp_all

/-- Example models exercising the three accessor cases: a valid selection, an
empty list, and a non-empty list with the no-selection index `-1`. -/
def mSubSelected : Model :=
  { initialModel "2026-11-10" with
      Subscriptions := [⟨"/subscriptions/a", "Prod"⟩], SelectedSubscription := 0 }

def mSubUnselected : Model :=
  { initialModel "2026-11-10" with Subscriptions := [⟨"/subscriptions/a", "Prod"⟩] }

def mAssignSelected : Model :=
  { initialModel "2026-11-10" with
      Assignments := [⟨"/a/p", "p", "P", "/a", ""⟩], SelectedAssignment := 0 }

def mAssignUnselected : Model :=
  { initialModel "2026-11-10" with Assignments := [⟨"/a/p", "p", "P", "/a", ""⟩] }

/-- C10 witness: the totality theorem applied at concrete models for each of
the six cases. -/
theorem currentAccessors_total_witness :
    mSubSelected.CurrentSubscription
        = mSubSelected.Subscriptions.getD mSubSelected.SelectedSubscription.toNat default ∧
    (initialModel "2026-11-10").CurrentSubscription = { ID := "", Name := "" } ∧
    mSubUnselected.CurrentSubscription = mSubUnselected.Subscriptions.getD 0 default ∧
    mAssignSelected.CurrentAssignment
        = mAssignSelected.Assignments.getD mAssignSelected.SelectedAssignment.toNat default ∧
    (initialModel "2026-11-10").CurrentAssignment
        = { ID := "", Name := "", DisplayName := "", Scope := "", PolicyDefinitionID := "" } ∧
    mAssignUnselected.CurrentAssignment = mAssignUnselected.Assignments.getD 0 default :=
  currentAccessors_total mSubSelected (initialModel "2026-11-10") mSubUnselected
    mAssignSelected (initialModel "2026-11-10") mAssignUnselected
    (by decide) (by decide) (by decide) (by decide)
    (by decide) (by decide) (by decide) (by decide)

/-- C4: at the expiration-date step, pressing Enter with the trimmed input
`"2024-02-30"` — a YYYY-MM-DD-shaped string that is not a valid calendar
date — leaves the step unchanged and sets a status message, as does an
empty input; pressing Enter with `"2024-06-15"` stores that string verbatim
as the expiration date and moves the machine to the confirm step. -/
theorem expirationDate_enter_validation (ma mb mc : Model)
    (ha1 : ma.Step = Step.expirationDate)
    (ha2 : trimStr ma.ExpirationInput.value = "2024-02-30")
    (hb1 : mb.Step = Step.expirationDate)
    (hb2 : trimStr mb.ExpirationInput.value = "")
    (hc1 : mc.Step = Step.expirationDate)
    (hc2 : trimStr mc.ExpirationInput.value = "2024-06-15") :
    (((ma.Update (.key .enter)).1).Step = Step.expirationDate ∧
     ((ma.Update (.key .enter)).1).Status = "Invalid date format. Please use YYYY-MM-DD." ∧
     ((ma.Update (.key .enter)).1).ExpirationDate = ma.ExpirationDate) ∧
    (((mb.Update (.key .enter)).1).Step = Step.expirationDate ∧
     ((mb.Update (.key .enter)).1).Status = "Expiration date is required." ∧
     ((mb.Update (.key .enter)).1).ExpirationDate = mb.ExpirationDate) ∧
    (((mc.Update (.key .enter)).1).Step = Step.confirm ∧
     ((mc.Update (.key .enter)).1).ExpirationDate = "2024-06-15") := by
  have hbad : (parseDate "2024-02-30").isNone = true := by decide
  have hgood : (parseDate "2024-06-15").isNone = false := by decide
  refine ⟨?_, ?_, ?_⟩ <;>
    simp [Model.Update, Model.handleKey, ha1, hb1, hc1, Key.string, Key.isEnter,
          TextInput.update, ha2, hb2, hc2, hbad, hgood]

/-- Example model sitting at the expiration-date step with a given input
value. -/
def atExpiration (v : String) : Model :=
  { initialModel "2026-11-10" with
      Step := .expirationDate, ExpirationInput := { value := v, focused := true } }

/-- C4 witness: the validation theorem applied at three concrete models
holding the inputs `"2024-02-30"`, `""` and `"2024-06-15"`. -/
theorem expirationDate_enter_validation_witness :
    ((((atExpiration "2024-02-30").Update (.key .enter)).1).Step = Step.expirationDate ∧
     (((atExpiration "2024-02-30").Update (.key .enter)).1).Status
        = "Invalid date format. Please use YYYY-MM-DD." ∧
     (((atExpiration "2024-02-30").Update (.key .enter)).1).ExpirationDate
        = (atExpiration "2024-02-30").ExpirationDate) ∧
    ((((atExpiration "").Update (.key .enter)).1).Step = Step.expirationDate ∧
     (((atExpiration "").Update (.key .enter)).1).Status = "Expiration date is required." ∧
     (((atExpiration "").Update (.key .enter)).1).ExpirationDate
        = (atExpiration "").ExpirationDate) ∧
    ((((atExpiration "2024-06-15").Update (.key .enter)).1).Step = Step.confirm ∧
     (((atExpiration "2024-06-15").Update (.key .enter)).1).ExpirationDate = "2024-06-15") :=
  expirationDate_enter_validation (atExpiration "2024-02-30") (atExpiration "")
    (atExpiration "2024-06-15") rfl (by decide) rfl (by decide) rfl (by decide)

/-- C5: validation failures are local and recoverable — Enter with a blank
(after trimming) ticket at the ticket step, a blank requester value at the
users step, an empty definition-selection set at the select-definitions
step (whose definition list is non-empty), or with a required selection
unset at the confirm step leaves the current step unchanged, sets a
non-empty status message, and never touches the terminal error value or
enters the error state. -/
theorem validation_failures_recoverable (mt mu md mc : Model)
    (ht1 : mt.Step = Step.ticket) (ht2 : trimStr mt.TicketInput.value = "")
    (hu1 : mu.Step = Step.users) (hu2 : trimStr mu.UserInput.value = "")
    (hd1 : md.Step = Step.selectDefinitions) (hd2 : md.SelectedDefinitionIDs = ∅)
    (hd3 : md.AssignmentDefinitions ≠ [])
    (hc1 : mc.Step = Step.confirm)
    (hc2 : mc.SelectedAssignment < 0 ∨ mc.Ticket = "" ∨ mc.RequestUser = "" ∨
      mc.SelectedSubscription < 0 ∨ mc.SelectedResourceGroup < 0) :
    (((mt.Update (.key .enter)).1).Step = Step.ticket ∧
     ((mt.Update (.key .enter)).1).Status ≠ "" ∧
     ((mt.Update (.key .enter)).1).Err = mt.Err ∧
     ((mt.Update (.key .enter)).1).Step ≠ Step.error) ∧
    (((mu.Update (.key .enter)).1).Step = Step.users ∧
     ((mu.Update (.key .enter)).1).Status ≠ "" ∧
     ((mu.Update (.key .enter)).1).Err = mu.Err ∧
     ((mu.Update (.key .enter)).1).Step ≠ Step.error) ∧
    (((md.Update (.key .enter)).1).Step = Step.selectDefinitions ∧
     ((md.Update (.key .enter)).1).Status ≠ "" ∧
     ((md.Update (.key .enter)).1).Err = md.Err ∧
     ((md.Update (.key .enter)).1).Step ≠ Step.error) ∧
    (((mc.Update (.key .enter)).1).Step = Step.confirm ∧
     ((mc.Update (.key .enter)).1).Status ≠ "" ∧
     ((mc.Update (.key .enter)).1).Err = mc.Err ∧
     ((mc.Update (.key .enter)).1).Step ≠ Step.error) := by
  refine ⟨?_, ?_, ?_, ?_⟩ <;>
    simp [Model.Update, Model.handleKey, ht1, hu1, hd1, hc1, Key.string, Key.isEnter,
          TextInput.update, ht2, hu2, hd2, hd3, hc2]

/-- Example models exercising the four validation failures: a blank ticket,
a blank requester, an empty selection over a two-definition list, and a
confirm step with no selections made. -/
def mBlankTicket : Model :=
  { initialModel "2026-11-10" with
      Step := .ticket, TicketInput := { value := "  ", focused := true } }

def mBlankUsers : Model :=
  { initialModel "2026-11-10" with
      Step := .users, UserInput := { value := "", focused := true } }

def mNoSelection : Model :=
  { initialModel "2026-11-10" with
      Step := .selectDefinitions,
      AssignmentDefinitions := [⟨"/d/1", "r1", "One"⟩, ⟨"/d/2", "r2", "Two"⟩] }

def mConfirmUnset : Model :=
  { initialModel "2026-11-10" with Step := .confirm }

/-- C5 witness: the recoverability theorem applied at the four concrete
models above. -/
theorem validation_failures_recoverable_witness :
    (((mBlankTicket.Update (.key .enter)).1).Step = Step.ticket ∧
     ((mBlankTicket.Update (.key .enter)).1).Status ≠ "" ∧
     ((mBlankTicket.Update (.key .enter)).1).Err = mBlankTicket.Err ∧
     ((mBlankTicket.Update (.key .enter)).1).Step ≠ Step.error) ∧
    (((mBlankUsers.Update (.key .enter)).1).Step = Step.users ∧
     ((mBlankUsers.Update (.key .enter)).1).Status ≠ "" ∧
     ((mBlankUsers.Update (.key .enter)).1).Err = mBlankUsers.Err ∧
     ((mBlankUsers.Update (.key .enter)).1).Step ≠ Step.error) ∧
    (((mNoSelection.Update (.key .enter)).1).Step = Step.selectDefinitions ∧
     ((mNoSelection.Update (.key .enter)).1).Status ≠ "" ∧
     ((mNoSelection.Update (.key .enter)).1).Err = mNoSelection.Err ∧
     ((mNoSelection.Update (.key .enter)).1).Step ≠ Step.error) ∧
    (((mConfirmUnset.Update (.key .enter)).1).Step = Step.confirm ∧
     ((mConfirmUnset.Update (.key .enter)).1).Status ≠ "" ∧
     ((mConfirmUnset.Update (.key .enter)).1).Err = mConfirmUnset.Err ∧
     ((mConfirmUnset.Update (.key .enter)).1).Step ≠ Step.error) :=
  validation_failures_recoverable mBlankTicket mBlankUsers mNoSelection mConfirmUnset
    rfl (by decide) rfl (by decide) rfl (by decide) (by decide) rfl (by decide)

/-- C8: in the select-definitions step with a non-empty definition list,
toggling at the same cursor position twice leaves the definition-selection
set equal to what it was before the first toggle. -/
theorem toggle_involutive (m : Model)
    (h1 : m.Step = Step.selectDefinitions)
    (h2 : m.AssignmentDefinitions ≠ []) :
    (((m.Update (.key (.char ' '))).1).Update (.key (.char ' '))).1.SelectedDefinitionIDs
      = m.SelectedDefinitionIDs := by
  have hlen : m.AssignmentDefinitions.length ≠ 0 := by
    simpa using h2
  have hsp : (Key.char ' ').string = " " := rfl
  by_cases hmem : (m.AssignmentDefinitions[m.Cursor.toNat]?.getD default).ReferenceID
      ∈ m.SelectedDefinitionIDs
  case pos =>
    have hB : (m.Update (.key (.char ' '))).1.Step = Step.selectDefinitions := by
      simp [Model.Update, Model.handleKey, hsp, h1, hlen, hmem]
    have hC : (m.Update (.key (.char ' '))).1.AssignmentDefinitions
        = m.AssignmentDefinitions := by
      simp [Model.Update, Model.handleKey, hsp, h1, hlen, hmem]
    have hD : (m.Update (.key (.char ' '))).1.Cursor = m.Cursor := by
      simp [Model.Update, Model.handleKey, hsp, h1, hlen, hmem]
    have hA : (m.Update (.key (.char ' '))).1.SelectedDefinitionIDs
        = m.SelectedDefinitionIDs.erase
            (m.AssignmentDefinitions[m.Cursor.toNat]?.getD default).ReferenceID := by
      simp [Model.Update, Model.handleKey, hsp, h1, hlen, hmem]
    set m1 := (m.Update (.key (.char ' '))).1 with hm1
    simp [Model.Update, Model.handleKey, hsp, hB, hC, hD, hA, hlen,
          Finset.not_mem_erase, Finset.insert_erase hmem]
  case neg =>
    have hB : (m.Update (.key (.char ' '))).1.Step = Step.selectDefinitions := by
      simp [Model.Update, Model.handleKey, hsp, h1, hlen, hmem]
    have hC : (m.Update (.key (.char ' '))).1.AssignmentDefinitions
        = m.AssignmentDefinitions := by
      simp [Model.Update, Model.handleKey, hsp, h1, hlen, hmem]
    have hD : (m.Update (.key (.char ' '))).1.Cursor = m.Cursor := by
      simp [Model.Update, Model.handleKey, hsp, h1, hlen, hmem]
    have hA : (m.Update (.key (.char ' '))).1.SelectedDefinitionIDs
        = insert (m.AssignmentDefinitions[m.Cursor.toNat]?.getD default).ReferenceID
            m.SelectedDefinitionIDs := by
      simp [Model.Update, Model.handleKey, hsp, h1, hlen, hmem]
    set m1 := (m.Update (.key (.char ' '))).1 with hm1
    simp [Model.Update, Model.handleKey, hsp, hB, hC, hD, hA, hlen,
          Finset.mem_insert_self, Finset.erase_insert hmem]

/-- Example model at the select-definitions step with one selected id. -/
def mToggle : Model :=
  { initialModel "2026-11-10" with
      Step := .selectDefinitions,
      AssignmentDefinitions := [⟨"/d/1", "r1", "One"⟩, ⟨"/d/2", "r2", "Two"⟩],
      SelectedDefinitionIDs := {"r2"} }

/-- C8 witness: the involution theorem applied at a concrete model. -/
theorem toggle_involutive_witness :
    (((mToggle.Update (.key (.char ' '))).1).Update (.key (.char ' '))).1.SelectedDefinitionIDs
      = mToggle.SelectedDefinitionIDs :=
  toggle_involutive mToggle rfl (by decide)

set_option maxHeartbeats 1600000 in
/-- C7: every transition that enters a loading step
(`loadingAssignments`, `loadingAssignmentDefinitions`,
`loadingResourceGroups`) or the `creating` step schedules exactly one
asynchronous operation — the one matching that step.  A transition can
never schedule more than one operation: the dispatcher returns at most one
command by construction of its result type. -/
theorem loading_entry_schedules_matching_op (m : Model) (msg : Msg)
    (h1 : isLoadingOrCreating ((m.Update msg).1).Step = true)
    (h2 : ((m.Update msg).1).Step ≠ m.Step) :
    ∃ c : Cmd, (m.Update msg).2 = some c ∧
      cmdMatchesStep ((m.Update msg).1).Step c = true := by
  cases msg with
  | key k =>
    by_cases hq : k.string = "ctrl+c" ∨ k.string = "q"
    · simp only [Model.Update, if_pos hq] at h2
      exact absurd rfl h2
    · simp only [Model.Update, if_neg hq] at h1 h2 ⊢
      cases hs : m.Step
      all_goals simp only [Model.handleKey, hs] at h1 h2 ⊢
      all_goals try split_ifs at h1 h2 ⊢
      all_goals first
        | exact absurd rfl h2
        | exact absurd h1 (by decide)
        | exact ⟨_, rfl, rfl⟩
        | simp_all [isLoadingOrCreating, cmdMatchesStep]
  | subscriptionsLoaded subs err =>
    rcases err with _ | e
    · simp only [Model.Update] at h1 h2 ⊢
      split_ifs at h1 h2 ⊢ <;> simp_all [Model.Fail, isLoadingOrCreating]
    · simp_all [Model.Update, Model.Fail, isLoadingOrCreating]
  | assignmentsLoaded assigns err =>
    rcases err with _ | e
    · simp only [Model.Update] at h1 h2 ⊢
      split_ifs at h1 h2 ⊢ <;> simp_all [Model.Fail, isLoadingOrCreating]
    · simp_all [Model.Update, Model.Fail, isLoadingOrCreating]
  | assignmentDefinitionsLoaded defs err =>
    rcases err with _ | e
    · simp only [Model.Update] at h1 h2 ⊢
      split_ifs at h1 h2 ⊢ <;> simp_all [Model.Fail, isLoadingOrCreating, cmdMatchesStep]
    · simp_all [Model.Update, Model.Fail, isLoadingOrCreating]
  | resourceGroupsLoaded rgs err =>
    rcases err with _ | e <;> simp_all [Model.Update, Model.Fail, isLoadingOrCreating]
  | exemptionCreated output err =>
    rcases err with _ | e <;> simp_all [Model.Update, Model.Fail, isLoadingOrCreating]

/-- Example model sitting at the subscription-selection step with one
subscription loaded. -/
def mReadySub : Model :=
  ((initialModel "2026-11-10").Update
    (.subscriptionsLoaded [⟨"/subscriptions/a", "Prod"⟩] none)).1

/-- C7 witness: the scheduling theorem applied at a concrete model entering
the assignments-loading step on Enter. -/
theorem loading_entry_schedules_matching_op_witness :
    ∃ c : Cmd, (mReadySub.Update (.key .enter)).2 = some c ∧
      cmdMatchesStep ((mReadySub.Update (.key .enter)).1).Step c = true :=
  loading_entry_schedules_matching_op mReadySub (.key .enter) (by decide) (by decide)

/-- A model whose current step displays no list satisfies the cursor
invariant vacuously. -/
theorem cursorInv_of_none (mm : Model) (hnone : currentListLength mm = none) :
    cursorInv mm := by
  intro n hn
  rw [hnone] at hn
  exact absurd hn (by simp)

/-- A model whose cursor is `0` satisfies the cursor invariant. -/
theorem cursorInv_of_zero (mm : Model) (hz : mm.Cursor = 0) : cursorInv mm := by
  intro n hn hpos
  rw [hz]
  exact ⟨le_refl 0, by exact_mod_cast hpos⟩

/-- The initial model satisfies the cursor invariant. -/
theorem initial_cursorInv (s : String) : cursorInv (initialModel s) :=
  cursorInv_of_none _ rfl

/-- Every event preserves the cursor invariant. -/
theorem cursorInv_preserved (m : Model) (msg : Msg) (h : cursorInv m) :
    cursorInv (m.Update msg).1 := by
  cases msg with
  | key k =>
    by_cases hq : k.string = "ctrl+c" ∨ k.string = "q"
    · simpa only [Model.Update, if_pos hq] using h
    · simp only [Model.Update, if_neg hq]
      cases hs : m.Step with
      | selectSubscription =>
        simp only [Model.handleKey, hs]
        split_ifs
        · intro n hn hpos
          simp only [currentListLength, hs, Option.some.injEq] at hn
          have hb := h n (by simp [currentListLength, hs, hn]) hpos
          show 0 ≤ m.Cursor - 1 ∧ m.Cursor - 1 < (n : Int)
          omega
        · exact h
        · intro n hn hpos
          simp only [currentListLength, hs, Option.some.injEq] at hn
          have hb := h n (by simp [currentListLength, hs, hn]) hpos
          show 0 ≤ m.Cursor + 1 ∧ m.Cursor + 1 < (n : Int)
          omega
        · exact h
        · exact h
        · exact cursorInv_of_none _ rfl
        · exact h
      | selectAssignment =>
        simp only [Model.handleKey, hs]
        split_ifs
        · intro n hn hpos
          simp only [currentListLength, hs, Option.some.injEq] at hn
          have hb := h n (by simp [currentListLength, hs, hn]) hpos
          show 0 ≤ m.Cursor - 1 ∧ m.Cursor - 1 < (n : Int)
          omega
        · exact h
        · intro n hn hpos
          simp only [currentListLength, hs, Option.some.injEq] at hn
          have hb := h n (by simp [currentListLength, hs, hn]) hpos
          show 0 ≤ m.Cursor + 1 ∧ m.Cursor + 1 < (n : Int)
          omega
        · exact h
        · exact h
        · exact cursorInv_of_none _ rfl
        · exact h
      | assignmentScope =>
        simp only [Model.handleKey, hs]
        split_ifs
        · intro n hn hpos
          simp only [currentListLength, hs, Option.some.injEq] at hn
          have hb := h n (by simp [currentListLength, hs, hn]) hpos
          show 0 ≤ m.Cursor - 1 ∧ m.Cursor - 1 < (n : Int)
          omega
        · exact h
        · intro n hn hpos
          simp only [currentListLength, hs, Option.some.injEq] at hn
          have hb := h n (by simp [currentListLength, hs, hn]) hpos
          show 0 ≤ m.Cursor + 1 ∧ m.Cursor + 1 < (n : Int)
          omega
        · exact h
        · exact cursorInv_of_none _ rfl
        · exact cursorInv_of_zero _ rfl
        · exact h
      | selectDefinitions =>
        simp only [Model.handleKey, hs]
        split_ifs
        · intro n hn hpos
          simp only [currentListLength, hs, Option.some.injEq] at hn
          have hb := h n (by simp [currentListLength, hs, hn]) hpos
          show 0 ≤ m.Cursor - 1 ∧ m.Cursor - 1 < (n : Int)
          omega
        · exact h
        · intro n hn hpos
          simp only [currentListLength, hs, Option.some.injEq] at hn
          have hb := h n (by simp [currentListLength, hs, hn]) hpos
          show 0 ≤ m.Cursor + 1 ∧ m.Cursor + 1 < (n : Int)
          omega
        · exact h
        · exact h
        · intro n hn hpos
          simp only [currentListLength, hs, Option.some.injEq] at hn
          have hb := h n (by simp [currentListLength, hs, hn]) hpos
          show 0 ≤ m.Cursor ∧ m.Cursor < (n : Int)
          omega
        · intro n hn hpos
          simp only [currentListLength, hs, Option.some.injEq] at hn
          have hb := h n (by simp [currentListLength, hs, hn]) hpos
          show 0 ≤ m.Cursor ∧ m.Cursor < (n : Int)
          omega
        · exact h
        · intro n hn hpos
          simp only [currentListLength, hs, Option.some.injEq] at hn
          have hb := h n (by simp [currentListLength, hs, hn]) hpos
          show 0 ≤ m.Cursor ∧ m.Cursor < (n : Int)
          omega
        · exact cursorInv_of_none _ rfl
        · exact h
      | selectResourceGroup =>
        simp only [Model.handleKey, hs]
        split_ifs
        · intro n hn hpos
          simp only [currentListLength, hs, Option.some.injEq] at hn
          have hb := h n (by simp [currentListLength, hs, hn]) hpos
          show 0 ≤ m.Cursor - 1 ∧ m.Cursor - 1 < (n : Int)
          omega
        · exact h
        · intro n hn hpos
          simp only [currentListLength, hs, Option.some.injEq] at hn
          have hb := h n (by simp [currentListLength, hs, hn]) hpos
          show 0 ≤ m.Cursor + 1 ∧ m.Cursor + 1 < (n : Int)
          omega
        · exact h
        · exact h
        · exact cursorInv_of_none _ rfl
        · exact h
      | ticket =>
        simp only [Model.handleKey, hs]
        split_ifs
        · exact cursorInv_of_none _ (by simp [currentListLength, hs])
        · exact cursorInv_of_none _ rfl
        · exact cursorInv_of_none _ (by simp [currentListLength, hs])
      | users =>
        simp only [Model.handleKey, hs]
        split_ifs
        · exact cursorInv_of_none _ (by simp [currentListLength, hs])
        · exact cursorInv_of_zero _ rfl
        · exact cursorInv_of_none _ (by simp [currentListLength, hs])
      | expirationChoice =>
        simp only [Model.handleKey, hs]
        split_ifs
        · intro n hn hpos
          simp only [currentListLength, hs, Option.some.injEq] at hn
          have hb := h n (by simp [currentListLength, hs, hn]) hpos
          show 0 ≤ m.Cursor - 1 ∧ m.Cursor - 1 < (n : Int)
          omega
        · exact h
        · intro n hn hpos
          simp only [currentListLength, hs, Option.some.injEq] at hn
          have hb := h n (by simp [currentListLength, hs, hn]) hpos
          show 0 ≤ m.Cursor + 1 ∧ m.Cursor + 1 < (n : Int)
          omega
        · exact h
        · exact cursorInv_of_none _ rfl
        · exact cursorInv_of_none _ rfl
        · exact h
      | expirationDate =>
        simp only [Model.handleKey, hs]
        split_ifs
        · exact cursorInv_of_none _ (by simp [currentListLength, hs])
        · exact cursorInv_of_none _ (by simp [currentListLength, hs])
        · exact cursorInv_of_none _ rfl
        · exact cursorInv_of_none _ (by simp [currentListLength, hs])
      | confirm =>
        simp only [Model.handleKey, hs]
        split_ifs
        · exact cursorInv_of_none _ (by simp [currentListLength, hs])
        · exact cursorInv_of_none _ rfl
        · exact h
      | loadingSubscriptions => simpa only [Model.handleKey, hs] using h
      | loadingAssignments => simpa only [Model.handleKey, hs] using h
      | loadingAssignmentDefinitions => simpa only [Model.handleKey, hs] using h
      | loadingResourceGroups => simpa only [Model.handleKey, hs] using h
      | creating => simpa only [Model.handleKey, hs] using h
      | done => simpa only [Model.handleKey, hs] using h
      | error => simpa only [Model.handleKey, hs] using h
  | subscriptionsLoaded subs err =>
    rcases err with _ | e
    · simp only [Model.Update]
      split_ifs
      · exact cursorInv_of_none _ rfl
      · exact cursorInv_of_zero _ rfl
    · exact cursorInv_of_none _ rfl
  | assignmentsLoaded assigns err =>
    rcases err with _ | e
    · simp only [Model.Update]
      split_ifs
      · exact cursorInv_of_none _ rfl
      · exact cursorInv_of_zero _ rfl
    · exact cursorInv_of_none _ rfl
  | assignmentDefinitionsLoaded defs err =>
    rcases err with _ | e
    · simp only [Model.Update]
      split_ifs
      · exact cursorInv_of_zero _ rfl
      · exact cursorInv_of_none _ rfl
    · exact cursorInv_of_none _ rfl
  | resourceGroupsLoaded rgs err =>
    rcases err with _ | e
    · exact cursorInv_of_zero _ rfl
    · exact cursorInv_of_none _ rfl
  | exemptionCreated output err =>
    rcases err with _ | e
    · exact cursorInv_of_none _ rfl
    · exact cursorInv_of_none _ rfl

/-- Every reachable model satisfies the cursor invariant. -/
theorem reachable_cursorInv (m : Model) (h : Reachable m) : cursorInv m := by
  induction h with
  | init s => exact initial_cursorInv s
  | step mm msg hm ih => exact cursorInv_preserved mm msg ih

/-- C6: in every reachable state whose current step displays a non-empty
list, the cursor stays within `[0, n-1]` after any up or down navigation
event (including the `k`/`j` aliases), and at either boundary the cursor is
clamped — an up event at index 0 and a down event at the last index leave
it unchanged — rather than wrapped to the other end. -/
theorem cursor_clamped_in_bounds (m : Model) (n : Nat) (ku kd : Key)
    (hr : Reachable m) (hl : currentListLength m = some n) (hn : 0 < n)
    (hku : ku.string = "up" ∨ ku.string = "k")
    (hkd : kd.string = "down" ∨ kd.string = "j") :
    (0 ≤ ((m.Update (.key ku)).1).Cursor ∧ ((m.Update (.key ku)).1).Cursor < (n : Int)) ∧
    (0 ≤ ((m.Update (.key kd)).1).Cursor ∧ ((m.Update (.key kd)).1).Cursor < (n : Int)) ∧
    (m.Cursor = 0 → ((m.Update (.key ku)).1).Cursor = m.Cursor) ∧
    (m.Cursor = (n : Int) - 1 → ((m.Update (.key kd)).1).Cursor = m.Cursor) := by
  have hb := reachable_cursorInv m hr n hl hn
  have hqu : ¬ (ku.string = "ctrl+c" ∨ ku.string = "q") := by
    rcases hku with hk | hk <;> simp [hk]
  have hqd : ¬ (kd.string = "ctrl+c" ∨ kd.string = "q") := by
    rcases hkd with hk | hk <;> simp [hk]
  have hnup : ¬ (kd.string = "up" ∨ kd.string = "k") := by
    rcases hkd with hk | hk <;> simp [hk]
  cases hs : m.Step
  all_goals try (simp [currentListLength, hs] at hl)
  case selectSubscription =>
    have hlen : m.Subscriptions.length = n := by simpa [currentListLength, hs] using hl
    simp only [Model.Update, Model.handleKey, hs, if_neg hqu, if_neg hqd,
               if_pos hku, if_pos hkd, if_neg hnup]
    split_ifs <;> (try simp) <;> omega
  case selectAssignment =>
    have hlen : m.Assignments.length = n := by simpa [currentListLength, hs] using hl
    simp only [Model.Update, Model.handleKey, hs, if_neg hqu, if_neg hqd,
               if_pos hku, if_pos hkd, if_neg hnup]
    split_ifs <;> (try simp) <;> omega
  case assignmentScope =>
    have hlen : n = 2 := by simpa [currentListLength, hs] using hl.symm
    simp only [Model.Update, Model.handleKey, hs, if_neg hqu, if_neg hqd,
               if_pos hku, if_pos hkd, if_neg hnup]
    split_ifs <;> (try simp) <;> omega
  case selectDefinitions =>
    have hlen : m.AssignmentDefinitions.length = n := by
      simpa [currentListLength, hs] using hl
    simp only [Model.Update, Model.handleKey, hs, if_neg hqu, if_neg hqd,
               if_pos hku, if_pos hkd, if_neg hnup]
    split_ifs <;> (try simp) <;> omega
  case selectResourceGroup =>
    have hlen : m.ResourceGroups.length = n := by simpa [currentListLength, hs] using hl
    simp only [Model.Update, Model.handleKey, hs, if_neg hqu, if_neg hqd,
               if_pos hku, if_pos hkd, if_neg hnup]
    split_ifs <;> (try simp) <;> omega
  case expirationChoice =>
    have hlen : n = 2 := by simpa [currentListLength, hs] using hl.symm
    simp only [Model.Update, Model.handleKey, hs, if_neg hqu, if_neg hqd,
               if_pos hku, if_pos hkd, if_neg hnup]
    split_ifs <;> (try simp) <;> omega

/-- A reachable model at the subscription-selection step with two
subscriptions loaded. -/
def cursorDemoModel : Model :=
  ((initialModel "2026-11-10").Update
    (.subscriptionsLoaded [⟨"/subscriptions/a", "Prod"⟩, ⟨"/subscriptions/b", "Dev"⟩]
      none)).1

/-- C6 witness: the clamping theorem applied at a concrete reachable model
with a two-element list and the cursor at index 0. -/
theorem cursor_clamped_in_bounds_witness :
    (0 ≤ ((cursorDemoModel.Update (.key .up)).1).Cursor ∧
      ((cursorDemoModel.Update (.key .up)).1).Cursor < (2 : Int)) ∧
    (0 ≤ ((cursorDemoModel.Update (.key .down)).1).Cursor ∧
      ((cursorDemoModel.Update (.key .down)).1).Cursor < (2 : Int)) ∧
    (cursorDemoModel.Cursor = 0 →
      ((cursorDemoModel.Update (.key .up)).1).Cursor = cursorDemoModel.Cursor) ∧
    (cursorDemoModel.Cursor = (2 : Int) - 1 →
      ((cursorDemoModel.Update (.key .down)).1).Cursor = cursorDemoModel.Cursor) :=
  cursor_clamped_in_bounds cursorDemoModel 2 .up .down
    (Reachable.step (initialModel "2026-11-10")
      (.subscriptionsLoaded [⟨"/subscriptions/a", "Prod"⟩, ⟨"/subscriptions/b", "Dev"⟩]
        none)
      (Reachable.init "2026-11-10"))
    (by decide) (by decide) (Or.inl rfl) (Or.inl rfl)

end AzureExemptionCli
